import Mathlib

/-!
Verification of the ClawHouse channel gateway (openclaw-plugin).

Shallow embedding of the delivery core: the poll executor `pollAndDeliver`,
the per-account poll serializer `enqueuePoll`, the cursor store `loadCursor`,
the backoff policy `nextBackoff`, the abortable sleep `sleepWithAbort`, the
client error classification `requestErrorMessage`, and the supervisor loop
of `startClawHouseConnection` modelled one iteration at a time by
`supervisorIteration`.  Definitions follow the richest gateway variant
(`src/unnamed/part_005`) together with `src/src/deliver.ts` and
`src/src/client.ts`; effects (consumer deliveries, cursor-store writes,
backoff sleeps) are made explicit as traces.
-/

namespace ClawHouse

/-- JS truthiness of a `string | null` value: `null` and the empty string
are falsy, every other string is truthy. -/
def isTruthy : Option String → Bool
  | none => false
  | some s => decide (s ≠ "")

/-- Chat message returned by the messages API (`config-validation.ts`,
`interface ChatMessage`); only the fields the gateway reads are kept.
`authorType` is the string `"bot"` or `"user"` exactly as in the source. -/
structure ChatMessage where
  messageId : String
  userId : String
  authorType : String
  content : String
  deriving DecidableEq, Repr

/-- Response of `messages.list` (`config-validation.ts`,
`interface MessagesResponse`). -/
structure MessagesResponse where
  items : List ChatMessage
  cursor : Option String
  hasMore : Bool
  deriving DecidableEq, Repr

/-- The `SEED` sentinel of `pollAndDeliver` (`src/unnamed/part_005`,
line 500): marks a completed first-run flow with an empty inbox. -/
def SEED : String := "SEED"

/-- Observable effects of one `pollAndDeliver` call:
`attempted` is the list of messages passed to `deliverMessageToAgent`
(in order), `saves` the arguments of the `saveCursor` calls (in order),
and `result` the returned JS value (`none` models `null`). -/
structure PollTrace where
  attempted : List ChatMessage
  saves : List String
  result : Option String
  deriving DecidableEq, Repr

/-- The delivery loop of `pollAndDeliver` (`src/unnamed/part_005`,
lines 534-542): skip messages with `authorType === "bot"`, await
`deliverMessageToAgent` for the rest.  `deliver m = .error e` models the
awaited call rejecting, which aborts the loop (the exception propagates to
the surrounding try/catch).  Returns the messages passed to `deliver` and
whether the loop ran to completion. -/
def deliverLoop (deliver : ChatMessage → Except String Unit) :
    List ChatMessage → List ChatMessage × Bool
  | [] => ([], true)
  | m :: rest =>
    if m.authorType = "bot" then deliverLoop deliver rest
    else
      match deliver m with
      | .error _ => ([m], false)
      | .ok _ =>
        let r := deliverLoop deliver rest
        (m :: r.1, r.2)

/-- The poll executor `pollAndDeliver` (`src/unnamed/part_005`, lines
490-560).  The network call `client.listMessages` is the parameter
`listMessages` (`.error` models a rejected request), the consumer hand-off
is the parameter `deliver`.  Control flow mirrors the source: first-run
detection on a falsy or `SEED` cursor, the first-run branch that seeds
without delivering, the empty-page early return, the delivery loop, the
single end-of-page `saveCursor`, and the catch-all that logs and returns
`null`. -/
def pollAndDeliver (cursor : Option String)
    (listMessages : Option String → Except String MessagesResponse)
    (deliver : ChatMessage → Except String Unit) : PollTrace :=
  let isFirstRun : Bool := !isTruthy cursor || decide (cursor = some SEED)
  let apiCursor : Option String :=
    if isTruthy cursor && !decide (cursor = some SEED) then cursor else none
  match listMessages apiCursor with
  | .error _ => ⟨[], [], none⟩
  | .ok response =>
    if isFirstRun then
      ⟨[],
       if isTruthy response.cursor then [response.cursor.getD ""] else [],
       some (response.cursor.getD SEED)⟩
    else if response.items.isEmpty then ⟨[], [], none⟩
    else
      match deliverLoop deliver response.items with
      | (att, true) =>
        ⟨att,
         if isTruthy response.cursor then [response.cursor.getD ""] else [],
         response.cursor⟩
      | (att, false) => ⟨att, [], none⟩

/-- Result of `deliverMessageToAgent` as the poll loop observes it:
whether a dispatch failure was logged via `log.warn`. -/
structure DeliverOutcome where
  warned : Option String
  deriving DecidableEq, Repr

/-- The dispatch phase of `deliverMessageToAgent` (`src/src/deliver.ts`,
lines 110-142): `dispatchReplyFromConfig` is awaited inside try/catch, an
error is logged with `log.warn` and not rethrown, so the function always
resolves.  `dispatch` is the outcome of the dispatch call. -/
def deliverMessageToAgent (message : ChatMessage)
    (dispatch : Except String Unit) : Except String DeliverOutcome :=
  match dispatch with
  | .ok _ => .ok ⟨none⟩
  | .error e =>
    .ok ⟨some ("Failed to dispatch message " ++ message.messageId ++ ": " ++ e)⟩

/-- JS `String.prototype.trim` modelled over the character list: strip
leading and trailing whitespace. -/
def jsTrim (s : String) : String :=
  ⟨((s.data.dropWhile Char.isWhitespace).reverse.dropWhile
      Char.isWhitespace).reverse⟩

/-- The cursor-store read `loadCursor` (`src/unnamed/part_005`, lines
170-179): `readFileSync(path).trim() || null` inside try/catch.
`file = none` models a missing or unreadable cursor file (the catch
returns `null`); otherwise the content is trimmed and an empty result is
mapped to `null` by the `|| null` fallback. -/
def loadCursor (file : Option String) : Option String :=
  match file with
  | none => none
  | some content =>
    let t := jsTrim content
    if t = "" then none else some t

/-- Concrete user-authored message, for witnesses. -/
def msgUser (id : String) : ChatMessage :=
  ⟨id, "u1", "user", "hello from " ++ id⟩

/-- Concrete bot-authored message (a self-echo), for witnesses. -/
def msgBot (id : String) : ChatMessage :=
  ⟨id, "u1", "bot", "echo " ++ id⟩

/-- Relabels a message as externally authored; used to compare cursor
advancement of a page with and without self-authored events. -/
def relabelUser (m : ChatMessage) : ChatMessage := { m with authorType := "user" }

/-- Backoff constant `BACKOFF_INITIAL_MS` (`src/unnamed/part_005`, line 20). -/
def BACKOFF_INITIAL_MS : ℚ := 2000

/-- Backoff constant `BACKOFF_MAX_MS` (`src/unnamed/part_005`, line 21). -/
def BACKOFF_MAX_MS : ℚ := 30000

/-- Backoff constant `BACKOFF_FACTOR = 1.8` (`src/unnamed/part_005`,
line 22), exactly the rational 9/5. -/
def BACKOFF_FACTOR : ℚ := 9 / 5

/-- Backoff state (`src/unnamed/part_005`, lines 133-135). -/
structure BackoffState where
  attempt : ℕ
  deriving DecidableEq, Repr

/-- The backoff policy `nextBackoff` (`src/unnamed/part_005`, lines
137-145): delay = min(initial * factor ^ attempt, cap), plus jitter
delay * 0.25 * random; increments the attempt counter.  The IEEE-double
arithmetic and `Math.random()` of the source are modelled by exact
rationals with the random sample `j` as a parameter. -/
def nextBackoff (state : BackoffState) (j : ℚ) : ℚ × BackoffState :=
  let delay := min (BACKOFF_INITIAL_MS * BACKOFF_FACTOR ^ state.attempt)
    BACKOFF_MAX_MS
  (delay + delay * (1/4) * j, ⟨state.attempt + 1⟩)

/-- `resetBackoff` (`src/unnamed/part_005`, lines 147-149). -/
def resetBackoff (_ : BackoffState) : BackoffState := ⟨0⟩

/-- Backoff state after n `nextBackoff` calls starting from a reset
state. -/
def iterBackoff : ℕ → BackoffState
  | 0 => ⟨0⟩
  | n+1 => (nextBackoff (iterBackoff n) 0).2

/-- One enqueued poll operation: reads the in-memory cursor and either
fulfils with the new cursor value or rejects. -/
def PollOp := Option String → Except String (Option String)

/-- The poll serializer `enqueuePoll` (`src/unnamed/part_005`, lines
110-131): `pollChains` is a Map keyed by `ctx.accountId`; each call
appends a new operation to the tail of that account chain and leaves
every other account chain untouched.  Chains are modelled as the
per-account list of enqueued operation ids. -/
def enqueuePoll (chains : String → List ℕ) (accountId : String) (opId : ℕ) :
    String → List ℕ :=
  fun a => if a = accountId then chains a ++ [opId] else chains a

/-- Folds `enqueuePoll` over a trigger list, numbering operations from i. -/
def buildChainsFrom : ℕ → List String → (String → List ℕ) → String → List ℕ
  | _, [], chains => chains
  | i, t :: ts, chains => buildChainsFrom (i+1) ts (enqueuePoll chains t i)

/-- Per-account chains after a sequence of poll triggers (each trigger
names its account, as in the open and notify handlers of
`runWebSocketConnection`); operation ids are trigger positions. -/
def buildChains (triggers : List String) : String → List ℕ :=
  buildChainsFrom 0 triggers (fun _ => [])

/-- Sequential execution of one account chain, the semantics of
`prev.then(op).catch(log)`: operation k starts only after operation k-1
settled; on fulfilment with a truthy cursor `setCursor` updates the
in-memory cursor; a rejection is caught and logged, leaving the cursor
unchanged, and the next operation still runs.  Returns the start order of
the operations and the final cursor. -/
def runChainTrace : List (ℕ × PollOp) → Option String → List ℕ × Option String
  | [], c => ([], c)
  | (i, op) :: rest, c =>
    let c2 := match op c with
      | .ok nc => if isTruthy nc then nc else c
      | .error _ => c
    let r := runChainTrace rest c2
    (i :: r.1, r.2)

/-- Character-list prefix test, auxiliary to `includes`. -/
def startsWithChars : List Char → List Char → Bool
  | [], _ => true
  | _ :: _, [] => false
  | p :: ps, c :: cs => p == c && startsWithChars ps cs

/-- Character-list substring test, auxiliary to `includes`. -/
def containsChars (pat : List Char) : List Char → Bool
  | [] => pat.isEmpty
  | c :: rest => startsWithChars pat (c :: rest) || containsChars pat rest

/-- JS `String.prototype.includes`: substring containment. -/
def includes (s pat : String) : Bool := containsChars pat.data s.data

/-- Ways the ticket request `client.getWsTicket()` can fail, as observed
by `ClawHouseClient.request` (`src/src/client.ts`): a non-OK HTTP status,
a rejection of `fetch` itself (network failure, rethrown unchanged), or
the AbortError raised by the request-timeout timer. -/
inductive RequestOutcome where
  | httpStatus (status : ℕ) (statusText : String) (body : String)
  | networkError (msg : String)
  | timeout (procedure : String) (timeoutMs : ℕ)
  deriving DecidableEq, Repr

/-- The error message thrown by `ClawHouseClient.request`
(`src/src/client.ts`, lines 56-97) for a failed request: 401/403 maps to
the authentication-failed message, status at least 500 to the
server-error message, any other non-OK status to the generic API-error
message; a network-level rejection propagates unchanged; the AbortError
from the timeout timer maps to the timed-out message. -/
def requestErrorMessage : RequestOutcome → String
  | .httpStatus s st b =>
    if s = 401 ∨ s = 403 then
      "ClawHouse API authentication failed: " ++ toString s ++ " " ++ st
        ++ " — " ++ b
    else if 500 ≤ s then
      "ClawHouse API server error: " ++ toString s ++ " " ++ st ++ " — " ++ b
    else
      "ClawHouse API error: " ++ toString s ++ " " ++ st ++ " — " ++ b
  | .networkError m => m
  | .timeout p ms =>
    "ClawHouse API request to " ++ p ++ " timed out after " ++ toString ms ++ "ms"

/-- The fallback test in the catch of `startClawHouseConnection`
(`src/unnamed/part_005`, line 271): the polling fallback runs iff the
error message contains one of the three substrings. -/
def shouldFallBackToPolling (message : String) : Bool :=
  includes message "API error" || includes message "authentication failed" ||
    includes message "server error"

/-- How one iteration of the supervisor loop ends: the ticket request
threw, the WebSocket session promise rejected, or the WebSocket session
resolved (the close handler resolves for every close code). -/
inductive SessionEnd where
  | ticketFail (outcome : RequestOutcome)
  | wsReject (message : String)
  | wsCleanClose
  deriving DecidableEq, Repr

/-- Whether the session ended by resolving (clean close). -/
def SessionEnd.isCleanClose : SessionEnd → Bool
  | .wsCleanClose => true
  | _ => false

/-- Observable effects of one supervisor-loop iteration. -/
structure IterTrace where
  ranPollingFallback : Bool
  backoffSleepMs : Option ℚ
  attemptAfter : ℕ
  deriving DecidableEq, Repr

/-- One iteration of the while loop of `startClawHouseConnection`
(`src/unnamed/part_005`, lines 241-287).  `attempt` is the backoff
counter entering the iteration, `aborted` the abort-signal state at the
post-path check (line 281).  On ticket success `resetBackoff` runs (line
244) before the session, so a later rejection backs off from attempt 0; a
resolved session (clean close) leaves the try block with no catch and no
backoff sleep; in the catch the polling fallback runs iff the message
passes `shouldFallBackToPolling`, then unless aborted the loop sleeps for
a `nextBackoff` delay (the jitter-free delay is recorded). -/
def supervisorIteration (attempt : ℕ) (ev : SessionEnd) (aborted : Bool) :
    IterTrace :=
  match ev with
  | .wsCleanClose => ⟨false, none, 0⟩
  | .wsReject msg =>
    if aborted then ⟨shouldFallBackToPolling msg, none, 0⟩
    else ⟨shouldFallBackToPolling msg, some (nextBackoff ⟨0⟩ 0).1, 1⟩
  | .ticketFail outcome =>
    let msg := requestErrorMessage outcome
    if aborted then ⟨shouldFallBackToPolling msg, none, attempt⟩
    else ⟨shouldFallBackToPolling msg, some (nextBackoff ⟨attempt⟩ 0).1,
      attempt + 1⟩

/-- The supervisor loop over a sequence of session outcomes, threading the
backoff counter; every element of the input is one ticket/push attempt
made by the loop. -/
def supervisorRun : ℕ → List SessionEnd → List IterTrace
  | _, [] => []
  | n, ev :: rest =>
    let t := supervisorIteration n ev false
    t :: supervisorRun t.attemptAfter rest

/-- `maxIterations` of `runPollingFallback` (`src/unnamed/part_005`,
line 467). -/
def maxIterations : ℕ := 10

/-- Loop counter of `runPollingFallback`: first argument is the remaining
iteration budget, second the iteration index. -/
def pollingFallbackCountAux (aborted : ℕ → Bool) : ℕ → ℕ → ℕ
  | 0, _ => 0
  | r+1, i => if aborted i then 0 else pollingFallbackCountAux aborted r (i+1) + 1

/-- Number of `pollAndDeliver` calls made by one `runPollingFallback` run
(`src/unnamed/part_005`, lines 458-481): the while loop runs while the
signal is not aborted and fewer than `maxIterations` polls have run.
`aborted i` is the abort-signal state at the check before iteration i. -/
def runPollingFallbackCount (aborted : ℕ → Bool) : ℕ :=
  pollingFallbackCountAux aborted maxIterations 0

/-- `sleepWithAbort` (`src/unnamed/part_005`, lines 152-164): resolves
when the timer fires after ms, or immediately when the abort signal fires
first (the abort listener clears the timer and resolves).  `abortAt` is
the time the signal fires, if ever; the result is the elapsed time at
resolution. -/
def sleepWithAbort (ms : ℚ) (abortAt : Option ℚ) : ℚ :=
  match abortAt with
  | none => ms
  | some t => min t ms

/-- With a delivery callback that always resolves, the delivery loop runs
the whole page and passes along exactly the non-bot messages. -/
lemma deliverLoop_of_ok (deliver : ChatMessage → Except String Unit)
    (h : ∀ m, deliver m = .ok ()) (l : List ChatMessage) :
    deliverLoop deliver l = (l.filter (fun m => m.authorType ≠ "bot"), true) := by
  induction l with
  | nil => rfl
  | cons m rest ih =>
    by_cases hb : m.authorType = "bot"
    · simp [deliverLoop, hb, ih]
    · simp [deliverLoop, hb, h m, ih]

/-- Evaluation of `pollAndDeliver` on a normal (non-first-run) cursor. -/
lemma pollAndDeliver_normal (c : String) (h1 : c ≠ "") (h2 : c ≠ SEED)
    (resp : MessagesResponse) (deliver : ChatMessage → Except String Unit) :
    pollAndDeliver (some c) (fun _ => .ok resp) deliver =
      if resp.items.isEmpty then ⟨[], [], none⟩
      else
        match deliverLoop deliver resp.items with
        | (att, true) =>
          ⟨att, if isTruthy resp.cursor then [resp.cursor.getD ""] else [],
           resp.cursor⟩
        | (att, false) => ⟨att, [], none⟩ := by
  simp [pollAndDeliver, isTruthy, h1, h2]

/-- A poll with an absent cursor never hands a message to the consumer. -/
lemma pollAndDeliver_absent_attempted
    (listMessages : Option String → Except String MessagesResponse)
    (deliver : ChatMessage → Except String Unit) :
    (pollAndDeliver none listMessages deliver).attempted = [] := by
  simp only [pollAndDeliver]
  split
  · rfl
  · simp [isTruthy]

/-- The attempt counter after n `nextBackoff` calls is n. -/
lemma iterBackoff_attempt (n : ℕ) : (iterBackoff n).attempt = n := by
  induction n with
  | zero => rfl
  | succ k ih => simp [iterBackoff, nextBackoff, ih]

/-- Closed form of the jitter-free delay of the n-th `nextBackoff` call. -/
lemma nextBackoff_delay (n : ℕ) :
    (nextBackoff (iterBackoff n) 0).1
      = min (2000 * (9/5 : ℚ) ^ n) 30000 := by
  simp [nextBackoff, iterBackoff_attempt, BACKOFF_INITIAL_MS, BACKOFF_FACTOR,
    BACKOFF_MAX_MS]

/-- Appending one trigger enqueues exactly one operation via
`enqueuePoll`. -/
lemma buildChainsFrom_push : ∀ (ts : List String) (i : ℕ)
    (chains : String → List ℕ) (t : String),
    buildChainsFrom i (ts ++ [t]) chains
      = enqueuePoll (buildChainsFrom i ts chains) t (i + ts.length) := by
  intro ts
  induction ts with
  | nil => intro i chains t; simp [buildChainsFrom]
  | cons u ts ih =>
    intro i chains t
    have harith : i + 1 + ts.length = i + (ts.length + 1) := by omega
    show buildChainsFrom (i+1) (ts ++ [t]) (enqueuePoll chains u i)
      = enqueuePoll (buildChainsFrom (i+1) ts (enqueuePoll chains u i)) t
        (i + (ts.length + 1))
    rw [ih, harith]

/-- Prefix containment is preserved by appending on the right. -/
lemma startsWithChars_append (pat : List Char) :
    ∀ (l r : List Char), startsWithChars pat l = true →
      startsWithChars pat (l ++ r) = true := by
  induction pat with
  | nil => intro l r _; rfl
  | cons p ps ih =>
    intro l r h
    cases l with
    | nil => simp [startsWithChars] at h
    | cons c cs =>
      simp only [startsWithChars, Bool.and_eq_true] at h ⊢
      exact ⟨h.1, ih cs r h.2⟩

/-- The empty pattern is contained in every character list. -/
lemma containsChars_nil_pat (l : List Char) : containsChars [] l = true := by
  induction l with
  | nil => rfl
  | cons c cs ih => simp [containsChars, startsWithChars]

/-- Substring containment is preserved by appending on the right. -/
lemma containsChars_append (pat l r : List Char) :
    containsChars pat l = true → containsChars pat (l ++ r) = true := by
  induction l with
  | nil =>
    intro h
    cases pat with
    | nil => exact containsChars_nil_pat r
    | cons p ps => simp [containsChars] at h
  | cons c cs ih =>
    intro h
    simp only [containsChars, Bool.or_eq_true] at h
    rcases h with h | h
    · simp only [List.cons_append, containsChars, Bool.or_eq_true]
      exact Or.inl (startsWithChars_append pat (c :: cs) r h)
    · simp only [List.cons_append, containsChars, Bool.or_eq_true]
      exact Or.inr (ih h)

/-- `includes` is preserved by appending on the right. -/
lemma includes_append (a b pat : String) :
    includes a pat = true → includes (a ++ b) pat = true := by
  intro h
  unfold includes at h ⊢
  rw [String.data_append]
  exact containsChars_append _ _ _ h

/-- The polling-fallback loop counter never exceeds its budget. -/
lemma pollingFallbackCountAux_le (ab : ℕ → Bool) :
    ∀ (r i : ℕ), pollingFallbackCountAux ab r i ≤ r := by
  intro r
  induction r with
  | zero => intro i; exact le_rfl
  | succ k ih =>
    intro i
    by_cases h : ab i
    · simp [pollingFallbackCountAux, h]
    · simp only [pollingFallbackCountAux, h, if_false, Bool.false_eq_true]
      exact Nat.succ_le_succ (ih (i+1))

/-- Claim C1 (code behaviour at the failing input): with an absent cursor
and a source reporting an empty stream, `pollAndDeliver` performs no
cursor-store write at all — the `SEED` sentinel is only the in-memory
return value — and a subsequent call whose cursor is `SEED` is again
treated as a first-run synchronization: the fetched message is not
delivered, only the fresh source cursor is persisted.  This contradicts
the claim (and the source comment at lines 522-523 of
`src/unnamed/part_005`), which expect `SEED` to be persisted and a `SEED`
poll to deliver normally. -/
theorem seed_sentinel_source_behavior :
    pollAndDeliver none (fun _ => .ok ⟨[], none, false⟩) (fun _ => .ok ())
      = ⟨[], [], some "SEED"⟩
    ∧ pollAndDeliver (some "SEED")
        (fun _ => .ok ⟨[msgUser "m1"], some "c1", false⟩) (fun _ => .ok ())
      = ⟨[], ["c1"], some "c1"⟩ :=
  ⟨by decide, by decide⟩

/-- Claim C2 (code behaviour at the failing input): on a normal poll over
a page of three events, `saveCursor` is called exactly once, after the
whole page, not after each successful delivery; and when delivery of the
second event rejects, the third event is never attempted and no cursor is
written, so the next poll re-reads the whole page.  This contradicts the
claim (and the source comment at lines 531-532 of
`src/unnamed/part_005`), which state the cursor is persisted after each
successful delivery so that a mid-page failure does not force
redelivery. -/
theorem cursor_saved_once_at_page_end :
    pollAndDeliver (some "cur0")
      (fun _ => .ok ⟨[msgUser "m1", msgUser "m2", msgUser "m3"], some "c3", false⟩)
      (fun _ => .ok ())
      = ⟨[msgUser "m1", msgUser "m2", msgUser "m3"], ["c3"], some "c3"⟩
    ∧ pollAndDeliver (some "cur0")
        (fun _ => .ok ⟨[msgUser "m1", msgUser "m2", msgUser "m3"], some "c3", false⟩)
        (fun m => if m = msgUser "m2" then .error "inbound context failure"
          else .ok ())
      = ⟨[msgUser "m1", msgUser "m2"], [], none⟩ :=
  ⟨by decide, by decide⟩

/-- Claim C3: poll operations are serialized per account.  Every trigger
appends exactly one operation to the tail of its own account chain
(so it runs after all previously enqueued operations of that account), a
trigger for a different account leaves the chain untouched (accounts
never delay each other), and executing a chain starts every operation
exactly once in enqueue order, each after its predecessor settled,
whether the predecessor fulfilled or rejected. -/
theorem enqueuePoll_serializes_per_account :
    (∀ (ts : List String) (a : String),
      buildChains (ts ++ [a]) a = buildChains ts a ++ [ts.length])
    ∧ (∀ (ts : List String) (a b : String), b ≠ a →
      buildChains (ts ++ [b]) a = buildChains ts a)
    ∧ ∀ (ops : List (ℕ × PollOp)) (c : Option String),
      (runChainTrace ops c).1 = ops.map Prod.fst := by
  refine ⟨?_, ?_, ?_⟩
  · intro ts a
    simp [buildChains, buildChainsFrom_push, enqueuePoll]
  · intro ts a b h
    simp [buildChains, buildChainsFrom_push, enqueuePoll, Ne.symm h]
  · intro ops
    induction ops with
    | nil => intro c; rfl
    | cons p rest ih =>
      intro c
      obtain ⟨i, op⟩ := p
      simp [runChainTrace, ih]

/-- Witness for C3 at concrete accounts: a trigger for acctB leaves the
chain of acctA unchanged. -/
theorem enqueuePoll_serializes_per_account_witness :
    "acctB" ≠ "acctA" ∧
      buildChains ["acctA", "acctB"] "acctA" = buildChains ["acctA"] "acctA" :=
  ⟨by decide,
    enqueuePoll_serializes_per_account.2.1 ["acctA"] "acctA" "acctB" (by decide)⟩

/-- Claim C4 (counterexample): a network-level failure of the ticket
request — `fetch` rejecting with the message "fetch failed" — does not
trigger the polling fallback, because the message contains none of the
substrings tested by the catch of `startClawHouseConnection`; the claim
states that every ticket-request failure, network failures included,
falls back to polling. -/
theorem network_ticket_failure_no_fallback :
    (supervisorIteration 0 (.ticketFail (.networkError "fetch failed"))
      false).ranPollingFallback = false := by decide

/-- Claim C4 (amended): every ticket-request failure carrying an HTTP
status — authentication failure (401/403), server error (at least 500),
or any other non-OK status — produces an error message matching the
fallback condition, so the supervisor runs the polling fallback; the
fallback is bounded by 10 poll cycles; and the supervisor loop then
proceeds, every loop iteration being one push (ticket) attempt. -/
theorem http_ticket_failure_bounded_fallback :
    (∀ (s : ℕ) (st b : String),
      shouldFallBackToPolling (requestErrorMessage (.httpStatus s st b)) = true)
    ∧ (∀ (attempt s : ℕ) (st b : String),
      (supervisorIteration attempt (.ticketFail (.httpStatus s st b))
        false).ranPollingFallback = true)
    ∧ (∀ aborted : ℕ → Bool, runPollingFallbackCount aborted ≤ 10)
    ∧ runPollingFallbackCount (fun _ => false) = 10
    ∧ ∀ (n : ℕ) (evs : List SessionEnd),
        (supervisorRun n evs).length = evs.length := by
  have hmain : ∀ (s : ℕ) (st b : String),
      shouldFallBackToPolling (requestErrorMessage (.httpStatus s st b)) = true := by
    intro s st b
    unfold requestErrorMessage
    by_cases h1 : s = 401 ∨ s = 403
    · have key : includes ("ClawHouse API authentication failed: " ++ toString s
          ++ " " ++ st ++ " — " ++ b) "authentication failed" = true :=
        includes_append _ _ _ (includes_append _ _ _ (includes_append _ _ _
          (includes_append _ _ _ (includes_append _ _ _ (by decide)))))
      simp [shouldFallBackToPolling, h1, key]
    · by_cases h2 : 500 ≤ s
      · have key : includes ("ClawHouse API server error: " ++ toString s
            ++ " " ++ st ++ " — " ++ b) "server error" = true :=
          includes_append _ _ _ (includes_append _ _ _ (includes_append _ _ _
            (includes_append _ _ _ (includes_append _ _ _ (by decide)))))
        simp [shouldFallBackToPolling, h1, h2, key]
      · have key : includes ("ClawHouse API error: " ++ toString s
            ++ " " ++ st ++ " — " ++ b) "API error" = true :=
          includes_append _ _ _ (includes_append _ _ _ (includes_append _ _ _
            (includes_append _ _ _ (includes_append _ _ _ (by decide)))))
        simp [shouldFallBackToPolling, h1, h2, key]
  refine ⟨hmain, ?_, ?_, by rfl, ?_⟩
  · intro attempt s st b
    simp [supervisorIteration, hmain]
  · intro aborted
    exact pollingFallbackCountAux_le aborted maxIterations 0
  · intro n evs
    induction evs generalizing n with
    | nil => rfl
    | cons ev rest ih => simp [supervisorRun, ih]

/-- Claim C5 (counterexample): after a clean WebSocket close — the
session promise resolving — the supervisor loop performs no backoff sleep
at all; it reconnects immediately.  The claim states the loop sleeps for
a backoff delay after every non-abort exit, a clean close included. -/
theorem clean_close_skips_backoff_sleep :
    (supervisorIteration 5 .wsCleanClose false).backoffSleepMs = none := rfl

/-- Claim C5 (amended): the supervisor iteration sleeps for a backoff
delay exactly when the path ended in a rejection (ticket failure or
session error) and the abort signal has not fired; the slept delay comes
from the backoff policy (after a session rejection the counter was reset
by the preceding successful ticket, so the delay is the initial one); a
clean close or a fired abort signal skips the sleep; and an abortable
sleep completes at the abort time when the signal fires before the timer. -/
theorem backoff_sleep_after_failures_abortable :
    (∀ (n : ℕ) (ev : SessionEnd) (ab : Bool),
      (supervisorIteration n ev ab).backoffSleepMs ≠ none
        ↔ (ab = false ∧ ev.isCleanClose = false))
    ∧ (∀ (n : ℕ) (out : RequestOutcome),
      (supervisorIteration n (.ticketFail out) false).backoffSleepMs
        = some (nextBackoff ⟨n⟩ 0).1)
    ∧ (∀ (n : ℕ) (msg : String),
      (supervisorIteration n (.wsReject msg) false).backoffSleepMs
        = some (nextBackoff ⟨0⟩ 0).1)
    ∧ ∀ (ms t : ℚ), t ≤ ms → sleepWithAbort ms (some t) = t := by
  refine ⟨?_, fun n out => rfl, fun n msg => rfl, ?_⟩
  · intro n ev ab
    cases ev <;> cases ab <;>
      simp [supervisorIteration, SessionEnd.isCleanClose]
  · intro ms t h
    simpa [sleepWithAbort] using min_eq_left h

/-- Witness for C5: a signal that fires at time 0 ends a 2000 ms backoff
sleep immediately. -/
theorem backoff_sleep_after_failures_abortable_witness :
    (0 : ℚ) ≤ 2000 ∧ sleepWithAbort 2000 (some 0) = 0 :=
  ⟨by norm_num, backoff_sleep_after_failures_abortable.2.2.2 2000 0 (by norm_num)⟩

/-- Claim C6: a dispatch failure inside `deliverMessageToAgent` is logged
via `log.warn` and the call still resolves, so during a normal poll the
page loop hands every non-bot event of the page to the consumer path,
whatever the dispatch outcomes of earlier events were. -/
theorem delivery_failure_not_abort :
    (∀ (m : ChatMessage) (e : String),
      deliverMessageToAgent m (.error e)
        = .ok ⟨some ("Failed to dispatch message " ++ m.messageId ++ ": " ++ e)⟩)
    ∧ ∀ (c : String), c ≠ "" → c ≠ SEED →
        ∀ (resp : MessagesResponse) (dispatchOf : ChatMessage → Except String Unit),
          (pollAndDeliver (some c) (fun _ => .ok resp)
            (fun m => (deliverMessageToAgent m (dispatchOf m)).map
              fun _ => ())).attempted
            = resp.items.filter (fun m => m.authorType ≠ "bot") := by
  constructor
  · intro m e
    rfl
  · intro c h1 h2 resp dispatchOf
    have hok : ∀ m, (deliverMessageToAgent m (dispatchOf m)).map
        (fun _ => ()) = Except.ok () := by
      intro m
      cases dispatchOf m <;> rfl
    obtain ⟨items, cur, hm⟩ := resp
    rw [pollAndDeliver_normal c h1 h2, deliverLoop_of_ok _ hok]
    cases items with
    | nil => simp
    | cons m0 rest => simp

/-- Witness for C6: a page whose first event fails to dispatch still
delivers the later non-bot event. -/
theorem delivery_failure_not_abort_witness :
    "cur2" ≠ "" ∧ "cur2" ≠ SEED ∧
    (pollAndDeliver (some "cur2")
      (fun _ => .ok ⟨[msgUser "m1", msgBot "b1", msgUser "m2"], some "c6", false⟩)
      (fun m => (deliverMessageToAgent m
        (if m = msgUser "m1" then .error "dispatch failed" else .ok ())).map
          fun _ => ())).attempted
      = [msgUser "m1", msgUser "m2"] :=
  ⟨by decide, by decide,
    ((delivery_failure_not_abort).2 "cur2" (by decide) (by decide)
      ⟨[msgUser "m1", msgBot "b1", msgUser "m2"], some "c6", false⟩
      (fun m => if m = msgUser "m1" then .error "dispatch failed"
        else .ok ())).trans (by decide)⟩

/-- Claim C7: the jitter-free delay of the n-th backoff call equals
min(2000 * (9/5) ^ n, 30000), is non-decreasing in n, never exceeds the
30000 ms cap, and after a counter reset the next delay is the 2000 ms
initial delay. -/
theorem nextBackoff_monotone_capped_resets :
    (∀ n : ℕ, (nextBackoff (iterBackoff n) 0).1
      = min (2000 * (9/5 : ℚ) ^ n) 30000)
    ∧ (∀ n : ℕ, (nextBackoff (iterBackoff n) 0).1
      ≤ (nextBackoff (iterBackoff (n+1)) 0).1)
    ∧ (∀ n : ℕ, (nextBackoff (iterBackoff n) 0).1 ≤ 30000)
    ∧ ∀ s : BackoffState, (nextBackoff (resetBackoff s) 0).1 = 2000 := by
  refine ⟨nextBackoff_delay, ?_, ?_, ?_⟩
  · intro n
    rw [nextBackoff_delay, nextBackoff_delay]
    refine min_le_min ?_ le_rfl
    have h1 : (9/5 : ℚ) ^ n ≤ (9/5 : ℚ) ^ (n+1) :=
      pow_le_pow_right₀ (by norm_num) (Nat.le_succ n)
    nlinarith
  · intro n
    rw [nextBackoff_delay]
    exact min_le_right _ _
  · intro s
    simp [nextBackoff, resetBackoff, BACKOFF_INITIAL_MS, BACKOFF_FACTOR,
      BACKOFF_MAX_MS]
    norm_num

/-- Claim C8: a poll with an absent cursor against a source returning a
page of historical events plus a fresh cursor delivers nothing to the
consumer, persists exactly the fresh cursor, and returns it. -/
theorem first_run_suppression (items : List ChatMessage) (c : String)
    (hc : c ≠ "") (hasMore : Bool) (deliver : ChatMessage → Except String Unit) :
    pollAndDeliver none (fun _ => .ok ⟨items, some c, hasMore⟩) deliver
      = ⟨[], [c], some c⟩ := by
  simp [pollAndDeliver, isTruthy, hc]

/-- Witness for C8: five historical events plus a fresh cursor. -/
theorem first_run_suppression_witness :
    "fresh-cursor" ≠ "" ∧
      pollAndDeliver none
        (fun _ => .ok ⟨[msgUser "h1", msgUser "h2", msgUser "h3", msgUser "h4",
          msgUser "h5"], some "fresh-cursor", false⟩) (fun _ => .ok ())
        = ⟨[], ["fresh-cursor"], some "fresh-cursor"⟩ :=
  ⟨by decide, first_run_suppression _ "fresh-cursor" (by decide) false _⟩

/-- Claim C9: during a normal poll, an event with authorType "bot" is
never passed to the consumer callback, and the cursor writes of the page
are identical to those of the same page with every event relabelled as
externally authored — the skipped events still advance the cursor. -/
theorem self_echo_filtering :
    ∀ (c : String), c ≠ "" → c ≠ SEED → ∀ (resp : MessagesResponse),
      (∀ m ∈ resp.items, m.authorType = "bot" →
        m ∉ (pollAndDeliver (some c) (fun _ => .ok resp)
          (fun _ => .ok ())).attempted)
      ∧ (pollAndDeliver (some c) (fun _ => .ok resp) (fun _ => .ok ())).saves
        = (pollAndDeliver (some c)
            (fun _ => .ok ⟨resp.items.map relabelUser, resp.cursor, resp.hasMore⟩)
            (fun _ => .ok ())).saves := by
  intro c h1 h2 resp
  obtain ⟨items, cur, hm⟩ := resp
  rw [pollAndDeliver_normal c h1 h2, pollAndDeliver_normal c h1 h2,
    deliverLoop_of_ok _ (fun m => rfl), deliverLoop_of_ok _ (fun m => rfl)]
  cases items with
  | nil => simp
  | cons m0 rest =>
    constructor
    · intro m hm hbot hmem
      simp at hmem
      exact hmem.2 hbot
    · simp

/-- Witness for C9: a bot-authored event in a concrete page is not
delivered. -/
theorem self_echo_filtering_witness :
    "cur1" ≠ "" ∧ "cur1" ≠ SEED ∧
    msgBot "b1" ∉ (pollAndDeliver (some "cur1")
      (fun _ => .ok ⟨[msgBot "b1", msgUser "m1"], some "c9", false⟩)
      (fun _ => .ok ())).attempted :=
  ⟨by decide, by decide,
    (self_echo_filtering "cur1" (by decide) (by decide)
      ⟨[msgBot "b1", msgUser "m1"], some "c9", false⟩).1 (msgBot "b1")
      (by decide) rfl⟩

/-- Claim C10: the cursor store never yields an empty cursor token — a
loaded cursor is non-empty, a file whose trimmed content is empty loads
as absent, a missing or unreadable file loads as absent, and a poll that
starts from an absent loaded cursor delivers nothing (first-run
synchronization path). -/
theorem loadCursor_blank_is_absent :
    (∀ (file : Option String) (s : String), loadCursor file = some s → s ≠ "")
    ∧ (∀ content : String, jsTrim content = "" → loadCursor (some content) = none)
    ∧ loadCursor none = none
    ∧ ∀ (file : Option String), loadCursor file = none →
        ∀ (listMessages : Option String → Except String MessagesResponse)
          (deliver : ChatMessage → Except String Unit),
          (pollAndDeliver (loadCursor file) listMessages deliver).attempted = [] := by
  refine ⟨?_, ?_, rfl, ?_⟩
  · intro file s h
    cases file with
    | none => simp [loadCursor] at h
    | some content =>
      simp only [loadCursor] at h
      by_cases ht : jsTrim content = ""
      · simp [ht] at h
      · simp [ht] at h
        simpa [← h] using ht
  · intro content h
    simp [loadCursor, h]
  · intro file h listMessages deliver
    rw [h]
    exact pollAndDeliver_absent_attempted _ _

/-- Witness for C10: a whitespace-only cursor file loads as absent. -/
theorem loadCursor_blank_is_absent_witness :
    jsTrim " \t\n  " = "" ∧ loadCursor (some " \t\n  ") = none :=
  ⟨by decide, loadCursor_blank_is_absent.2.1 " \t\n  " (by decide)⟩

end ClawHouse
